import Mathlib

/-!
Verification development for the UTheme BGM subsystem.

Shallow embedding of `source/utils/BgmDownloader.cpp` and
`source/utils/MusicPlayer.cpp`.  Strings of bytes (file contents, tag
fields) are modelled as `List Nat`; the float progress fraction is
modelled as `ℚ`; C `int` values that may wrap are modelled as `Int`
with an explicit two's-complement reinterpretation.
-/

namespace UTheme

set_option maxRecDepth 16384

/-! ### BgmDownloader: data model (BgmDownloader.hpp) -/

/-- `enum BgmDownloadState` from BgmDownloader.hpp. -/
inductive BgmDownloadState where
  | idle
  | downloading
  | complete
  | error
  | cancelled
deriving DecidableEq, Repr

/-- The concurrency-safe fields of `BgmDownloader` that one download job
reads and writes: `mState`, `mProgress`, `mDownloadedBytes`,
`mTotalBytes`, `mCancelRequested`, `mErrorMessage`. -/
structure DlJob where
  state : BgmDownloadState
  progress : ℚ
  downloadedBytes : Int
  totalBytes : Int
  cancelRequested : Bool
  errorMessage : String
deriving DecidableEq, Repr

/-- The reset performed by `StartDownload` (BgmDownloader.cpp lines 52-57)
before spawning the worker. -/
def startJob : DlJob :=
  { state := .downloading
    progress := 0
    downloadedBytes := 0
    totalBytes := 0
    cancelRequested := false
    errorMessage := "" }

/-- `BgmDownloader::ProgressCallback` (BgmDownloader.cpp lines 88-103).
Returns the updated fields together with the `int` return value handed
back to curl (non-zero aborts the transfer). -/
def progressCallback (j : DlJob) (dltotal dlnow : Int) : DlJob × Int :=
  if j.cancelRequested then
    (j, 1)
  else if 0 < dltotal then
    ({ j with totalBytes := dltotal
              progress := (dlnow : ℚ) / (dltotal : ℚ) }, 0)
  else
    (j, 0)

/-- The sequence of progress-callback invocations the transfer engine
performs during one `curl_easy_perform`, applied in order. -/
def runCallbacks (j : DlJob) : List (Int × Int) → DlJob
  | [] => j
  | e :: es => runCallbacks (progressCallback j e.1 e.2).1 es

/-! ### BgmDownloader: worker model (`PerformDownload`) -/

/-- The two files `PerformDownload` touches:
`fs:/vol/external01/UTheme/BGM.mp3` (dest) and
`fs:/vol/external01/UTheme/BGM.mp3.tmp` (temp).
`none` means the path does not exist. -/
structure BgmFS where
  dest : Option (List Nat)
  temp : Option (List Nat)
deriving DecidableEq, Repr

/-- Environment oracle for one worker run: the outcomes of the external
calls made by `PerformDownload` (fopen, curl_easy_init,
curl_easy_perform with its progress events and downloaded body,
CURLINFO_RESPONSE_CODE, rename). -/
structure DlEnv where
  tempCreateOk : Bool
  curlInitOk : Bool
  events : List (Int × Int)
  curlOk : Bool
  curlErrStr : String
  httpCode : Int
  renameOk : Bool
  transferData : List Nat
deriving Repr

/-- Result of one `PerformDownload` run: final job fields, final
filesystem, and the list of completion-callback invocations
(each `(success, message)`). -/
structure DlOutcome where
  job : DlJob
  fs : BgmFS
  calls : List (Bool × String)
deriving Repr

/-- `BgmDownloader::PerformDownload` (BgmDownloader.cpp lines 105-237),
as a function of the environment oracle, the filesystem, the job fields
at entry, and whether a completion callback is installed
(`mCompletionCallback` non-null). -/
def performDownload (env : DlEnv) (fs : BgmFS) (j : DlJob) (cbSet : Bool) :
    DlOutcome :=
  let invoke : Bool → String → List (Bool × String) :=
    fun ok msg => if cbSet then [(ok, msg)] else []
  -- fopen(tempPath, "wb")
  if ¬ env.tempCreateOk then
    { job := { j with errorMessage := "Failed to create temporary file"
                      state := .error }
      fs := fs
      calls := invoke false "Failed to create temporary file" }
  else
    -- the temp file now exists (created empty by fopen "wb")
    let fs1 : BgmFS := { fs with temp := some [] }
    -- curl_easy_init()
    if ¬ env.curlInitOk then
      { job := { j with errorMessage := "Failed to initialize CURL"
                        state := .error }
        fs := fs1
        calls := invoke false "Failed to initialize CURL" }
    else
      -- curl_easy_perform: progress callbacks fire, body bytes are
      -- written to the temp file through the fwrite sink
      let j1 := runCallbacks j env.events
      let fs2 : BgmFS := { fs1 with temp := some env.transferData }
      if ¬ env.curlOk then
        { job := { j1 with errorMessage := env.curlErrStr, state := .error }
          fs := { fs2 with temp := none }  -- remove(tempPath)
          calls := invoke false env.curlErrStr }
      else if env.httpCode ≠ 200 then
        { job := { j1 with errorMessage := "HTTP error: " ++ toString env.httpCode
                           state := .error }
          fs := { fs2 with temp := none }  -- remove(tempPath)
          calls := invoke false ("HTTP error: " ++ toString env.httpCode) }
      else
        -- remove(destPath): the old destination is deleted BEFORE rename
        let fs3 : BgmFS := { fs2 with dest := none }
        if ¬ env.renameOk then
          { job := { j1 with errorMessage := "Failed to rename temporary file"
                             state := .error }
            fs := { fs3 with temp := none }  -- remove(tempPath)
            calls := invoke false "Failed to rename temporary file" }
        else
          { job := { j1 with state := .complete, progress := 1 }
            fs := { fs3 with dest := some env.transferData, temp := none }
            calls := invoke true "" }

/-- The conjunction of conditions under which `PerformDownload` reaches
its success exit (state `BGM_COMPLETE`). -/
def dlSuccess (env : DlEnv) : Prop :=
  env.tempCreateOk ∧ env.curlInitOk ∧ env.curlOk ∧ env.httpCode = 200 ∧
    env.renameOk

instance (env : DlEnv) : Decidable (dlSuccess env) := by
  unfold dlSuccess; infer_instance

/-! ### MusicPlayer: ID3 tag decoding (MusicPlayer.cpp)

Files and tag buffers are byte lists (`List Nat`, each entry `< 256` in
any run since C reads them as `unsigned char`).  `std::string` results
are byte lists too; the empty list is the empty string. -/

/-- Reinterpretation of a 32-bit quantity as a C `int` (two's
complement), as happens when the big-endian frame-size expression is
stored into `int frameSize`. -/
def toSigned32 (n : Nat) : Int :=
  if n % 4294967296 < 2147483648 then ((n % 4294967296 : Nat) : Int)
  else ((n % 4294967296 : Nat) : Int) - 4294967296

/-- The synchsafe tag-size decode shared verbatim by `ReadID3Title`
(MusicPlayer.cpp lines 281-284) and `ReadID3Artist` (lines 429-432):
`((header[6] & 0x7F) << 21) | ((header[7] & 0x7F) << 14) |
((header[8] & 0x7F) << 7) | (header[9] & 0x7F)`. -/
def synchsafe28 (b0 b1 b2 b3 : Nat) : Nat :=
  ((b0 &&& 0x7F) <<< 21) ||| ((b1 &&& 0x7F) <<< 14) |||
    ((b2 &&& 0x7F) <<< 7) ||| (b3 &&& 0x7F)

/-- Frame-size decode in `ReadID3Title` (MusicPlayer.cpp lines 326-337):
synchsafe when `header[3] == 4`, else plain big-endian, stored into an
`int`. -/
def titleFrameSize (ver b4 b5 b6 b7 : Nat) : Int :=
  if ver = 4 then
    toSigned32 (((b4 &&& 0x7F) <<< 21) ||| ((b5 &&& 0x7F) <<< 14) |||
      ((b6 &&& 0x7F) <<< 7) ||| (b7 &&& 0x7F))
  else
    toSigned32 ((b4 <<< 24) ||| (b5 <<< 16) ||| (b6 <<< 8) ||| b7)

/-- Frame-size decode in `ReadID3Artist` (MusicPlayer.cpp lines 463-474);
the source duplicates the code of the title scan. -/
def artistFrameSize (ver b4 b5 b6 b7 : Nat) : Int :=
  if ver = 4 then
    toSigned32 (((b4 &&& 0x7F) <<< 21) ||| ((b5 &&& 0x7F) <<< 14) |||
      ((b6 &&& 0x7F) <<< 7) ||| (b7 &&& 0x7F))
  else
    toSigned32 ((b4 <<< 24) ||| (b5 <<< 16) ||| (b6 <<< 8) ||| b7)

/-- The byte string "TIT2". -/
def TIT2 : List Nat := [84, 73, 84, 50]

/-- The byte string "TPE1". -/
def TPE1 : List Nat := [84, 80, 69, 49]

/-- The 4 identifier bytes of the frame starting at offset `o`
(`memcpy(frameID, tagData + offset, 4)`); `strcmp(frameID, "TIT2") == 0`
holds exactly when these 4 bytes are the bytes of "TIT2". -/
def frameIdAt (d : List Nat) (o : Nat) : List Nat :=
  [d.getD o 0, d.getD (o + 1) 0, d.getD (o + 2) 0, d.getD (o + 3) 0]

/-- Text extraction of a matched frame (MusicPlayer.cpp lines 352-367):
`std::string((char*)(tagData + textStart), textSize)` followed by
truncation at the first `'\0'`. -/
def extractText (d : List Nat) (start len : Nat) : List Nat :=
  ((d.drop start).take len).takeWhile (fun b => !(b == 0))

/-- The frame-scanning loop of `ReadID3Title`
(MusicPlayer.cpp lines 304-381).  The source's final
`if (frameSize == 0) break;` is unreachable (the loop already broke when
`frameSize <= 0`), so it has no counterpart here. -/
def titleLoop (ver tagSize : Nat) (d : List Nat) (offset : Nat) : List Nat :=
  if h : offset + 10 < tagSize then
    if d.getD offset 0 = 0 then []  -- padding reached
    else
      let fsz := titleFrameSize ver (d.getD (offset + 4) 0)
        (d.getD (offset + 5) 0) (d.getD (offset + 6) 0) (d.getD (offset + 7) 0)
      if fsz ≤ 0 ∨ (tagSize : Int) - offset - 10 < fsz then []  -- invalid size
      else
        if frameIdAt d offset = TIT2 ∧ 1 < fsz then
          if offset + 11 + (fsz.toNat - 1) ≤ tagSize then
            extractText d (offset + 11) (fsz.toNat - 1)
          else
            titleLoop ver tagSize d (offset + 10 + fsz.toNat)
        else
          titleLoop ver tagSize d (offset + 10 + fsz.toNat)
  else []
termination_by tagSize - offset
decreasing_by all_goals omega

/-- The frame-scanning loop of `ReadID3Artist`
(MusicPlayer.cpp lines 449-519), duplicated from the title scan with
frame identifier "TPE1". -/
def artistLoop (ver tagSize : Nat) (d : List Nat) (offset : Nat) : List Nat :=
  if h : offset + 10 < tagSize then
    if d.getD offset 0 = 0 then []  -- padding reached
    else
      let fsz := artistFrameSize ver (d.getD (offset + 4) 0)
        (d.getD (offset + 5) 0) (d.getD (offset + 6) 0) (d.getD (offset + 7) 0)
      if fsz ≤ 0 ∨ (tagSize : Int) - offset - 10 < fsz then []  -- invalid size
      else
        if frameIdAt d offset = TPE1 ∧ 1 < fsz then
          if offset + 11 + (fsz.toNat - 1) ≤ tagSize then
            extractText d (offset + 11) (fsz.toNat - 1)
          else
            artistLoop ver tagSize d (offset + 10 + fsz.toNat)
        else
          artistLoop ver tagSize d (offset + 10 + fsz.toNat)
  else []
termination_by tagSize - offset
decreasing_by all_goals omega

/-- `MusicPlayer::ReadID3Title` (MusicPlayer.cpp lines 249-385) on the
raw bytes of the file.  The 10-byte header must be fully readable, start
with "ID3", and the declared tag body must be fully present in the file;
otherwise the result is the empty string. -/
def readID3Title (file : List Nat) : List Nat :=
  if file.length < 10 then []
  else if ¬ (file.getD 0 0 = 73 ∧ file.getD 1 0 = 68 ∧ file.getD 2 0 = 51)
  then []
  else
    let tagSize := synchsafe28 (file.getD 6 0) (file.getD 7 0)
      (file.getD 8 0) (file.getD 9 0)
    if file.length < 10 + tagSize then []
    else titleLoop (file.getD 3 0) tagSize ((file.drop 10).take tagSize) 0

/-- `MusicPlayer::ReadID3Artist` (MusicPlayer.cpp lines 406-523). -/
def readID3Artist (file : List Nat) : List Nat :=
  if file.length < 10 then []
  else if ¬ (file.getD 0 0 = 73 ∧ file.getD 1 0 = 68 ∧ file.getD 2 0 = 51)
  then []
  else
    let tagSize := synchsafe28 (file.getD 6 0) (file.getD 7 0)
      (file.getD 8 0) (file.getD 9 0)
    if file.length < 10 + tagSize then []
    else artistLoop (file.getD 3 0) tagSize ((file.drop 10).take tagSize) 0

/-- Removal of the trailing run of space/null bytes, as performed by the
downward loop over `titleBuf`/`artistBuf`
(MusicPlayer.cpp lines 559-565 and 572-578). -/
def rtrimField (l : List Nat) : List Nat :=
  (l.reverse.dropWhile (fun b => b == 32 || b == 0)).reverse

/-- One 30-byte ID3v1 text field as returned by the source: the
trailing space/null run is nulled out, then `std::string(buf)` stops at
the first remaining null byte. -/
def id3v1Field (l : List Nat) : List Nat :=
  (rtrimField l).takeWhile (fun b => !(b == 0))

/-- `MusicPlayer::ReadID3v1Tag` (MusicPlayer.cpp lines 527-584).
`none` models a `false` return (tag absent); `some (title, artist)`
models a `true` return with the two out-parameters. -/
def readID3v1Tag (file : List Nat) : Option (List Nat × List Nat) :=
  -- fseek(file, -128, SEEK_END) fails on files shorter than 128 bytes
  if file.length < 128 then none
  else
    let tag := file.drop (file.length - 128)
    if ¬ (tag.getD 0 0 = 84 ∧ tag.getD 1 0 = 65 ∧ tag.getD 2 0 = 71)
    then none
    else some (id3v1Field ((tag.drop 3).take 30),
               id3v1Field ((tag.drop 33).take 30))

/-! ### MusicPlayer: volume state -/

/-- The `MusicPlayer` fields relevant to volume handling. -/
structure PlayerState where
  volume : Int
  initialized : Bool
  enabled : Bool
deriving DecidableEq, Repr

/-- The constructor initialisation (MusicPlayer.cpp lines 8-15):
`mVolume(32)`, `mEnabled(true)`, `mInitialized(false)`. -/
def initialPlayer : PlayerState :=
  { volume := 32, initialized := false, enabled := true }

/-- `MusicPlayer::SetVolume` (MusicPlayer.cpp lines 146-155): clamp to
[0, 128] and store; the store happens whether or not the player is
initialized (only the mixer call is guarded by `mInitialized`). -/
def setVolume (v : Int) (s : PlayerState) : PlayerState :=
  let v1 := if v < 0 then 0 else v
  let v2 := if v1 > 128 then 128 else v1
  { s with volume := v2 }

/-- The public operations of `MusicPlayer` abstracted to their effect on
the fields of `PlayerState`; `Init` may fail (SDL errors), modelled by
its `ok` flag.  `LoadMusic`, `Play`, `Stop`, `Pause`, `Resume` and
`Update` never write `mVolume`, so one representative no-op stands for
them. -/
inductive PlayerOp where
  | setVol (v : Int)
  | doInit (ok : Bool)
  | shutdown
  | setEnabled (e : Bool)
  | playback

/-- Effect of one operation on the player fields. -/
def applyOp (s : PlayerState) : PlayerOp → PlayerState
  | .setVol v => setVolume v s
  | .doInit ok => if ok then { s with initialized := true } else s
  | .shutdown => { s with initialized := false }
  | .setEnabled e => { s with enabled := e }
  | .playback => s

/-- A sequence of operations run from a starting state. -/
def runOps (s : PlayerState) (ops : List PlayerOp) : PlayerState :=
  ops.foldl applyOp s

/-! ### Spec-side characterisations

These definitions follow the specification's words; the theorems below
compare them with the source-derived definitions above. -/

/-- Modelled from the spec: "each of the 4 bytes contributes its low 7
bits, concatenated as `(b0<<21)|(b1<<14)|(b2<<7)|b3`", read as the place
value sum of the four 7-bit groups. -/
def synchsafeSum (b0 b1 b2 b3 : Nat) : Nat :=
  (b0 % 128) * 2097152 + (b1 % 128) * 16384 + (b2 % 128) * 128 + b3 % 128

/-- Modelled from the spec: a frame size decoded "as a plain big-endian
32-bit integer", stored in a C `int` (two's-complement value). -/
def beSigned (b4 b5 b6 b7 : Nat) : Int :=
  if b4 * 16777216 + b5 * 65536 + b6 * 256 + b7 < 2147483648 then
    ((b4 * 16777216 + b5 * 65536 + b6 * 256 + b7 : Nat) : Int)
  else
    ((b4 * 16777216 + b5 * 65536 + b6 * 256 + b7 : Nat) : Int) - 4294967296

/-! ### Concrete test vectors -/

/-- A 16-byte ID3v2.3 tag body: a "TIT2" frame of size 6 (big-endian),
two flag bytes, encoding byte 0x00, payload "Hello". -/
def helloBody : List Nat :=
  [84, 73, 84, 50, 0, 0, 0, 6, 0, 0, 0, 72, 101, 108, 108, 111]

/-- A file with an ID3v2.3 header (tag size 16) followed by
`helloBody`. -/
def helloFile : List Nat := [73, 68, 51, 3, 0, 0, 0, 0, 0, 16] ++ helloBody

/-- A 17-byte ID3v2.3 tag body: a "TPE1" frame of size 7 (big-endian),
two flag bytes, encoding byte 0x00, payload "Artist". -/
def artistBody : List Nat :=
  [84, 80, 69, 49, 0, 0, 0, 7, 0, 0, 0, 65, 114, 116, 105, 115, 116]

/-- A file with an ID3v2.3 header (tag size 17) followed by
`artistBody`. -/
def artistFile : List Nat := [73, 68, 51, 3, 0, 0, 0, 0, 0, 17] ++ artistBody

/-- A 128-byte ID3v1 trailer file: "TAG", title "Song" padded with
spaces to 30 bytes, artist "Band" padded to 30 bytes, the remaining 65
bytes zero. -/
def v1GoodFile : List Nat :=
  [84, 65, 71] ++ ([83, 111, 110, 103] ++ List.replicate 26 32) ++
    ([66, 97, 110, 100] ++ List.replicate 26 32) ++ List.replicate 65 0

/-- A 128-byte ID3v1 trailer file whose title field contains an embedded
null: bytes "S", 0, "X" then 27 spaces; artist "Band" padded to 30. -/
def v1CexFile : List Nat :=
  [84, 65, 71] ++ ([83, 0, 88] ++ List.replicate 27 32) ++
    ([66, 97, 110, 100] ++ List.replicate 26 32) ++ List.replicate 65 0

/-! ### Arithmetic helper lemmas -/

lemma and127_eq_mod (x : Nat) : x &&& 127 = x % 128 := by
  have h := Nat.and_pow_two_sub_one_eq_mod x 7
  norm_num at h
  exact h

lemma shl_lor_eq (a b k : Nat) (hb : b < 2 ^ k) :
    (a <<< k) ||| b = a * 2 ^ k + b := by
  rw [Nat.shiftLeft_eq, Nat.mul_comm]
  exact (Nat.mul_add_lt_is_or hb a).symm

lemma synchsafe28_eq (b0 b1 b2 b3 : Nat) :
    synchsafe28 b0 b1 b2 b3 = synchsafeSum b0 b1 b2 b3 := by
  unfold synchsafe28 synchsafeSum
  rw [show (0x7F : Nat) = 127 from rfl]
  rw [and127_eq_mod, and127_eq_mod, and127_eq_mod, and127_eq_mod]
  have m0 : b0 % 128 < 128 := Nat.mod_lt _ (by norm_num)
  have m1 : b1 % 128 < 128 := Nat.mod_lt _ (by norm_num)
  have m2 : b2 % 128 < 128 := Nat.mod_lt _ (by norm_num)
  have m3 : b3 % 128 < 128 := Nat.mod_lt _ (by norm_num)
  rw [Nat.or_assoc, Nat.or_assoc]
  rw [shl_lor_eq (b2 % 128) (b3 % 128) 7 (by norm_num; omega)]
  rw [shl_lor_eq (b1 % 128) _ 14 (by norm_num; omega)]
  rw [shl_lor_eq (b0 % 128) _ 21 (by norm_num; omega)]
  ring

lemma be32_eq (b4 b5 b6 b7 : Nat) (h4 : b4 < 256) (h5 : b5 < 256)
    (h6 : b6 < 256) (h7 : b7 < 256) :
    (b4 <<< 24) ||| (b5 <<< 16) ||| (b6 <<< 8) ||| b7 =
      b4 * 16777216 + b5 * 65536 + b6 * 256 + b7 := by
  rw [Nat.or_assoc, Nat.or_assoc]
  rw [shl_lor_eq b6 b7 8 (by omega)]
  rw [shl_lor_eq b5 _ 16 (by norm_num; omega)]
  rw [shl_lor_eq b4 _ 24 (by norm_num; omega)]
  ring

lemma toSigned32_of_lt {n : Nat} (h : n < 2147483648) : toSigned32 n = n := by
  unfold toSigned32
  rw [Nat.mod_eq_of_lt (by omega)]
  rw [if_pos (by omega)]

lemma toSigned32_of_lt32 {n : Nat} (h : n < 4294967296) :
    toSigned32 n = if n < 2147483648 then ((n : Nat) : Int)
      else ((n : Nat) : Int) - 4294967296 := by
  unfold toSigned32
  rw [Nat.mod_eq_of_lt h]

lemma synchsafeSum_lt (b0 b1 b2 b3 : Nat) :
    synchsafeSum b0 b1 b2 b3 < 268435456 := by
  unfold synchsafeSum
  have m0 : b0 % 128 < 128 := Nat.mod_lt _ (by norm_num)
  have m1 : b1 % 128 < 128 := Nat.mod_lt _ (by norm_num)
  have m2 : b2 % 128 < 128 := Nat.mod_lt _ (by norm_num)
  have m3 : b3 % 128 < 128 := Nat.mod_lt _ (by norm_num)
  omega

/-! ### Claim theorems -/

/-- C8: the tag-body length is decoded from the 4 header bytes at offset
6 as a synchsafe 28-bit integer, each byte contributing its low 7 bits,
`((b6 & 0x7F)<<21) | ((b7 & 0x7F)<<14) | ((b8 & 0x7F)<<7) | (b9 & 0x7F)`;
in particular the bytes {0x00,0x00,0x02,0x01} decode to 257. -/
theorem tag_size_synchsafe_decode :
    (∀ b0 b1 b2 b3 : Nat, synchsafe28 b0 b1 b2 b3 = synchsafeSum b0 b1 b2 b3)
      ∧ synchsafe28 0 0 2 1 = 257 := by
  exact ⟨synchsafe28_eq, by decide⟩

/-- C5: a frame size is decoded as a synchsafe integer exactly when the
version byte (file byte at offset 3, `header[3]`) equals 4, and
otherwise as a plain big-endian 32-bit integer (stored into a C `int`,
hence the two's-complement reinterpretation); the title scan and the
artist scan apply the identical rule. -/
theorem frame_size_rule (ver b4 b5 b6 b7 : Nat) (h4 : b4 < 256)
    (h5 : b5 < 256) (h6 : b6 < 256) (h7 : b7 < 256) :
    (titleFrameSize ver b4 b5 b6 b7 =
        if ver = 4 then ((synchsafeSum b4 b5 b6 b7 : Nat) : Int)
        else beSigned b4 b5 b6 b7)
      ∧ artistFrameSize ver b4 b5 b6 b7 = titleFrameSize ver b4 b5 b6 b7 := by
  constructor
  · unfold titleFrameSize
    by_cases hv : ver = 4
    · rw [if_pos hv, if_pos hv]
      have he : ((b4 &&& 0x7F) <<< 21) ||| ((b5 &&& 0x7F) <<< 14) |||
          ((b6 &&& 0x7F) <<< 7) ||| (b7 &&& 0x7F) = synchsafe28 b4 b5 b6 b7 := rfl
      rw [he, synchsafe28_eq]
      exact toSigned32_of_lt (by
        have := synchsafeSum_lt b4 b5 b6 b7; omega)
    · rw [if_neg hv, if_neg hv]
      rw [be32_eq b4 b5 b6 b7 h4 h5 h6 h7]
      rw [toSigned32_of_lt32 (by omega)]
      unfold beSigned
      rfl
  · rfl

/-- Closed instance of `frame_size_rule`: a version-4 synchsafe frame
size and a version-3 big-endian frame size, with the artist scan
agreeing with the title scan. -/
theorem frame_size_rule_witness :
    titleFrameSize 4 0 0 0 6 = 6
      ∧ titleFrameSize 3 0 0 1 0 = 256
      ∧ artistFrameSize 3 0 0 1 0 = titleFrameSize 3 0 0 1 0 := by
  have h1 := frame_size_rule 4 0 0 0 6 (by norm_num) (by norm_num)
    (by norm_num) (by norm_num)
  have h2 := frame_size_rule 3 0 0 1 0 (by norm_num) (by norm_num)
    (by norm_num) (by norm_num)
  refine ⟨?_, ?_, h2.2⟩
  · rw [h1.1]; decide
  · rw [h2.1]; decide

/-- C4 (code bug): `ProgressCallback` called with the cancellation flag
clear and `dltotal = 10`, `dlnow = 5` returns the continue code, stores
`totalBytes = 10` and `progress = 1/2`, but leaves `downloadedBytes`
unchanged at 0 — `mDownloadedBytes` is never written by the callback,
although the field is reset by `StartDownload` and exposed through
`GetDownloadedBytes`.  When the flag is set, the callback returns the
abort code 1 and changes nothing. -/
theorem progress_callback_skips_downloaded_bytes :
    (progressCallback startJob 10 5).2 = 0
      ∧ (progressCallback startJob 10 5).1.totalBytes = 10
      ∧ (progressCallback startJob 10 5).1.progress = 1 / 2
      ∧ (progressCallback startJob 10 5).1.downloadedBytes = 0
      ∧ (progressCallback { startJob with cancelRequested := true } 10 5).2 = 1
      ∧ (progressCallback { startJob with cancelRequested := true } 10 5).1
          = { startJob with cancelRequested := true } := by
  norm_num [progressCallback, startJob]

/-- C2 counterexample: after `StartDownload`'s reset, a single engine
report with `dltotal = dlnow = 1` stores progress exactly 1 while the
state is still Downloading (refuting "progress = 1.0 iff state is
Complete"), and the reports (2,1) then (4,1) make the stored progress
decrease from 1/2 to 1/4 (refuting unconditional monotonicity). -/
theorem progress_one_while_downloading :
    ((progressCallback startJob 1 1).1.progress = 1
      ∧ (progressCallback startJob 1 1).1.state = BgmDownloadState.downloading)
    ∧ (progressCallback (progressCallback startJob 2 1).1 4 1).1.progress
        < (progressCallback startJob 2 1).1.progress := by
  norm_num [progressCallback, startJob]

/-- C2 (amended): the stored progress does not decrease across a
progress callback provided the engine's newly reported fraction is at
least the stored progress (curl reports non-decreasing `dlnow` against a
fixed `dltotal`, so this holds on ordinary transfers); and a fully
successful worker run ends with progress stored exactly 1.0 and state
Complete.  Progress may, however, already equal 1.0 before the state
leaves Downloading. -/
theorem progress_monotone_and_complete_one :
    (∀ (j : DlJob) (dltotal dlnow : Int),
      (0 < dltotal → j.progress ≤ (dlnow : ℚ) / (dltotal : ℚ)) →
      j.progress ≤ (progressCallback j dltotal dlnow).1.progress)
    ∧ (∀ (env : DlEnv) (fs : BgmFS) (j : DlJob) (cbSet : Bool),
      dlSuccess env →
      (performDownload env fs j cbSet).job.progress = 1
        ∧ (performDownload env fs j cbSet).job.state
            = BgmDownloadState.complete) := by
  constructor
  · intro j dltotal dlnow h
    unfold progressCallback
    split_ifs with h1 h2
    · exact le_refl _
    · exact h h2
    · exact le_refl _
  · intro env fs j cbSet hs
    obtain ⟨h1, h2, h3, h4, h5⟩ := hs
    simp [performDownload, h1, h2, h3, h4, h5]

/-- Closed instance of `progress_monotone_and_complete_one`: one
callback step with a report at least the stored progress, and one fully
successful run. -/
theorem progress_monotone_and_complete_one_witness :
    startJob.progress ≤ (progressCallback startJob 2 1).1.progress
    ∧ (performDownload ⟨true, true, [], true, "", 200, true, [1]⟩
        ⟨none, none⟩ startJob true).job.progress = 1
    ∧ (performDownload ⟨true, true, [], true, "", 200, true, [1]⟩
        ⟨none, none⟩ startJob true).job.state = BgmDownloadState.complete := by
  refine ⟨progress_monotone_and_complete_one.1 startJob 2 1 ?_, ?_, ?_⟩
  · intro h
    norm_num [startJob]
  · exact (progress_monotone_and_complete_one.2 _ _ _ _
      (by constructor <;> simp)).1
  · exact (progress_monotone_and_complete_one.2 _ _ _ _
      (by constructor <;> simp)).2

/-- C1 counterexample: a worker run in which everything succeeds up to
the final rename, which fails, ends in state Error with the pre-existing
destination file `BGM.mp3` removed — `PerformDownload` deletes the old
destination before attempting the rename, so this failure does not leave
the previous successful download in place. -/
theorem rename_failure_removes_destination :
    (performDownload ⟨true, true, [], true, "", 200, false, [1, 2]⟩
        ⟨some [9, 9], none⟩ startJob true).job.state = BgmDownloadState.error
    ∧ (performDownload ⟨true, true, [], true, "", 200, false, [1, 2]⟩
        ⟨some [9, 9], none⟩ startJob true).fs.dest = none
    ∧ (none : Option (List Nat)) ≠ some [9, 9] := by
  refine ⟨rfl, rfl, by simp⟩

/-- C1 (amended): a download attempt that fails before the commit phase
(temporary-file creation failure, engine failure, or non-200 HTTP
status) leaves the destination file exactly as it was; an attempt that
fails at the rename step leaves no destination file at all (the old one
was already removed); and in every case the destination afterwards is
the old content in full, absent, or the new content in full — never a
partial write. -/
theorem failed_download_preserves_destination (env : DlEnv) (fs : BgmFS)
    (j : DlJob) (cbSet : Bool) :
    ((¬ env.tempCreateOk ∨ ¬ env.curlInitOk ∨ ¬ env.curlOk
        ∨ env.httpCode ≠ 200) →
      (performDownload env fs j cbSet).fs.dest = fs.dest)
    ∧ (env.tempCreateOk → env.curlInitOk → env.curlOk → env.httpCode = 200 →
        ¬ env.renameOk → (performDownload env fs j cbSet).fs.dest = none)
    ∧ ((performDownload env fs j cbSet).fs.dest = fs.dest
        ∨ (performDownload env fs j cbSet).fs.dest = none
        ∨ (performDownload env fs j cbSet).fs.dest = some env.transferData) := by
  unfold performDownload
  by_cases h1 : env.tempCreateOk
  · by_cases h2 : env.curlInitOk
    · by_cases h3 : env.curlOk
      · by_cases h4 : env.httpCode = 200
        · by_cases h5 : env.renameOk
          · simp [h1, h2, h3, h4, h5]
          · simp [h1, h2, h3, h4, h5]
        · simp [h1, h2, h3, h4]
      · simp [h1, h2, h3]
    · simp [h1, h2]
  · simp [h1]

/-- Closed instance of `failed_download_preserves_destination`: a 404
attempt leaves the old destination untouched, while a rename failure
leaves none. -/
theorem failed_download_preserves_destination_witness :
    (performDownload ⟨true, true, [], true, "", 404, true, []⟩
        ⟨some [7], none⟩ startJob true).fs.dest = some [7]
    ∧ (performDownload ⟨true, true, [], true, "", 200, false, []⟩
        ⟨some [7], none⟩ startJob true).fs.dest = none := by
  constructor
  · exact (failed_download_preserves_destination _ _ _ _).1
      (by right; right; right; decide)
  · exact (failed_download_preserves_destination _ _ _ _).2.1
      rfl rfl rfl rfl (by decide)

/-- C3: with a completion callback installed, every worker run invokes
it exactly once; the invocation is `(true, "")` exactly on the fully
successful path (temp file created, engine initialised, transfer OK,
HTTP 200, rename OK), and otherwise it is `(false, m)` where `m` is the
error message the run stored. -/
theorem completion_callback_exactly_once (env : DlEnv) (fs : BgmFS)
    (j : DlJob) :
    (performDownload env fs j true).calls.length = 1
    ∧ ((performDownload env fs j true).calls = [(true, "")] ↔ dlSuccess env)
    ∧ (¬ dlSuccess env →
        (performDownload env fs j true).calls
          = [(false, (performDownload env fs j true).job.errorMessage)]) := by
  unfold performDownload dlSuccess
  by_cases h1 : env.tempCreateOk
  · by_cases h2 : env.curlInitOk
    · by_cases h3 : env.curlOk
      · by_cases h4 : env.httpCode = 200
        · by_cases h5 : env.renameOk
          · simp [h1, h2, h3, h4, h5]
          · simp [h1, h2, h3, h4, h5]
        · simp [h1, h2, h3, h4]
      · simp [h1, h2, h3]
    · simp [h1, h2]
  · simp [h1]

/-- Closed instance of `completion_callback_exactly_once`: a 404 run
makes exactly one callback invocation, with `success = false` and the
stored error message. -/
theorem completion_callback_exactly_once_witness :
    (performDownload ⟨true, true, [], true, "", 404, true, []⟩
        ⟨none, none⟩ startJob true).calls.length = 1
    ∧ (performDownload ⟨true, true, [], true, "", 404, true, []⟩
        ⟨none, none⟩ startJob true).calls
      = [(false, (performDownload ⟨true, true, [], true, "", 404, true, []⟩
            ⟨none, none⟩ startJob true).job.errorMessage)] := by
  constructor
  · exact (completion_callback_exactly_once _ _ _).1
  · exact (completion_callback_exactly_once _ _ _).2.2 (by decide)

lemma extractText_append (d extra : List Nat) (s n : Nat)
    (h : s + n ≤ d.length) :
    extractText (d ++ extra) s n = extractText d s n := by
  unfold extractText
  rw [List.drop_append_of_le_length (by omega)]
  rw [List.take_append_of_le_length (by simp; omega)]

lemma titleLoop_append (ver : Nat) (d extra : List Nat) (offset : Nat) :
    titleLoop ver d.length (d ++ extra) offset
      = titleLoop ver d.length d offset := by
  by_cases h : offset + 10 < d.length
  · have g0 : (d ++ extra).getD offset 0 = d.getD offset 0 :=
      List.getD_append _ _ _ _ (by omega)
    have g4 : (d ++ extra).getD (offset + 4) 0 = d.getD (offset + 4) 0 :=
      List.getD_append _ _ _ _ (by omega)
    have g5 : (d ++ extra).getD (offset + 5) 0 = d.getD (offset + 5) 0 :=
      List.getD_append _ _ _ _ (by omega)
    have g6 : (d ++ extra).getD (offset + 6) 0 = d.getD (offset + 6) 0 :=
      List.getD_append _ _ _ _ (by omega)
    have g7 : (d ++ extra).getD (offset + 7) 0 = d.getD (offset + 7) 0 :=
      List.getD_append _ _ _ _ (by omega)
    have gid : frameIdAt (d ++ extra) offset = frameIdAt d offset := by
      unfold frameIdAt
      rw [List.getD_append _ _ _ _ (by omega), List.getD_append _ _ _ _ (by omega),
        List.getD_append _ _ _ _ (by omega), List.getD_append _ _ _ _ (by omega)]
    conv_lhs => rw [titleLoop]
    conv_rhs => rw [titleLoop]
    rw [dif_pos h, dif_pos h, g0, gid, g4, g5, g6, g7]
    by_cases hp : d.getD offset 0 = 0
    · rw [if_pos hp, if_pos hp]
    · rw [if_neg hp, if_neg hp]
      dsimp only
      by_cases hs : titleFrameSize ver (d.getD (offset + 4) 0)
          (d.getD (offset + 5) 0) (d.getD (offset + 6) 0)
          (d.getD (offset + 7) 0) ≤ 0 ∨
          (d.length : Int) - offset - 10 < titleFrameSize ver
            (d.getD (offset + 4) 0) (d.getD (offset + 5) 0)
            (d.getD (offset + 6) 0) (d.getD (offset + 7) 0)
      · rw [if_pos hs, if_pos hs]
      · rw [if_neg hs, if_neg hs]
        by_cases hm : frameIdAt d offset = TIT2 ∧ 1 < titleFrameSize ver
            (d.getD (offset + 4) 0) (d.getD (offset + 5) 0)
            (d.getD (offset + 6) 0) (d.getD (offset + 7) 0)
        · rw [if_pos hm, if_pos hm]
          by_cases hb : offset + 11 + ((titleFrameSize ver
              (d.getD (offset + 4) 0) (d.getD (offset + 5) 0)
              (d.getD (offset + 6) 0) (d.getD (offset + 7) 0)).toNat - 1)
              ≤ d.length
          · rw [if_pos hb, if_pos hb]
            exact extractText_append d extra _ _ (by omega)
          · rw [if_neg hb, if_neg hb]
            exact titleLoop_append ver d extra _
        · rw [if_neg hm, if_neg hm]
          exact titleLoop_append ver d extra _
  · conv_lhs => rw [titleLoop]
    conv_rhs => rw [titleLoop]
    rw [dif_neg h, dif_neg h]
termination_by d.length - offset
decreasing_by all_goals omega

/-- C7: the title-scan frame iteration halts at a padding byte (first
identifier byte zero) and at a non-positive or over-long declared frame
size, in both cases returning the absent result (a found title would
already have been returned at the match); and the scan over a tag body
of the declared length never reads the buffer at or beyond that length —
its result is unchanged by arbitrary bytes appended after the declared
tag size. -/
theorem tag_parse_halts_safely :
    (∀ (ver tagSize : Nat) (d : List Nat) (offset : Nat),
      offset + 10 < tagSize → d.getD offset 0 = 0 →
      titleLoop ver tagSize d offset = [])
    ∧ (∀ (ver tagSize : Nat) (d : List Nat) (offset : Nat) (fsz : Int),
      offset + 10 < tagSize → d.getD offset 0 ≠ 0 →
      titleFrameSize ver (d.getD (offset + 4) 0) (d.getD (offset + 5) 0)
          (d.getD (offset + 6) 0) (d.getD (offset + 7) 0) = fsz →
      (fsz ≤ 0 ∨ (tagSize : Int) - offset - 10 < fsz) →
      titleLoop ver tagSize d offset = [])
    ∧ (∀ (ver : Nat) (d extra : List Nat) (offset : Nat),
      titleLoop ver d.length (d ++ extra) offset
        = titleLoop ver d.length d offset) := by
  refine ⟨?_, ?_, fun ver d extra offset => titleLoop_append ver d extra offset⟩
  · intro ver tagSize d offset hlt hz
    rw [titleLoop, dif_pos hlt, if_pos hz]
  · intro ver tagSize d offset fsz hlt hz hf hbad
    rw [titleLoop, dif_pos hlt, if_neg hz]
    dsimp only
    rw [hf, if_pos hbad]

/-- Closed instance of `tag_parse_halts_safely`: a padding halt, an
over-long-frame halt, and invariance of a concrete scan under appended
junk bytes. -/
theorem tag_parse_halts_safely_witness :
    titleLoop 3 12 (List.replicate 12 0) 0 = []
    ∧ titleLoop 3 12 [84, 73, 84, 50, 0, 0, 0, 99, 0, 0, 0, 0] 0 = []
    ∧ titleLoop 3 helloBody.length (helloBody ++ [1, 2, 3]) 0
        = titleLoop 3 helloBody.length helloBody 0 := by
  refine ⟨tag_parse_halts_safely.1 3 12 _ 0 (by norm_num) (by decide),
    tag_parse_halts_safely.2.1 3 12 _ 0 99 (by norm_num) (by decide)
      (by decide) ?_,
    tag_parse_halts_safely.2.2 3 helloBody [1, 2, 3] 0⟩
  right
  decide

/-- C6: in both the title (TIT2) and artist (TPE1) scans, a frame whose
identifier matches with declared size greater than 1 (and valid for the
remaining body) immediately determines the result: the first content
byte (the encoding marker) is skipped, the following size-1 bytes form
the text, truncated at the first null byte, and the scan returns without
examining later frames.  Concretely, a TIT2 frame with encoding byte
0x00 and payload "Hello" yields title "Hello", and a TPE1 frame with
payload "Artist" yields artist "Artist". -/
theorem first_matching_frame_determines_text :
    (∀ (ver tagSize : Nat) (d : List Nat) (offset : Nat) (fsz : Int),
      offset + 10 < tagSize →
      frameIdAt d offset = TIT2 →
      titleFrameSize ver (d.getD (offset + 4) 0) (d.getD (offset + 5) 0)
          (d.getD (offset + 6) 0) (d.getD (offset + 7) 0) = fsz →
      1 < fsz → fsz ≤ (tagSize : Int) - offset - 10 →
      titleLoop ver tagSize d offset
        = ((d.drop (offset + 11)).take (fsz.toNat - 1)).takeWhile
            (fun b => !(b == 0)))
    ∧ (∀ (ver tagSize : Nat) (d : List Nat) (offset : Nat) (fsz : Int),
      offset + 10 < tagSize →
      frameIdAt d offset = TPE1 →
      artistFrameSize ver (d.getD (offset + 4) 0) (d.getD (offset + 5) 0)
          (d.getD (offset + 6) 0) (d.getD (offset + 7) 0) = fsz →
      1 < fsz → fsz ≤ (tagSize : Int) - offset - 10 →
      artistLoop ver tagSize d offset
        = ((d.drop (offset + 11)).take (fsz.toNat - 1)).takeWhile
            (fun b => !(b == 0)))
    ∧ readID3Title helloFile = [72, 101, 108, 108, 111]
    ∧ readID3Artist artistFile = [65, 114, 116, 105, 115, 116] := by
  refine ⟨?_, ?_, ?_, ?_⟩
  · intro ver tagSize d offset fsz hlt hid hf h1 h2
    have hz : d.getD offset 0 = 84 := by
      have hid2 := hid
      unfold frameIdAt TIT2 at hid2
      injection hid2
    rw [titleLoop, dif_pos hlt, if_neg (by rw [hz]; norm_num)]
    dsimp only
    rw [hf, if_neg (by push_neg; omega), if_pos ⟨hid, h1⟩,
      if_pos (by omega)]
    rfl
  · intro ver tagSize d offset fsz hlt hid hf h1 h2
    have hz : d.getD offset 0 = 84 := by
      have hid2 := hid
      unfold frameIdAt TPE1 at hid2
      injection hid2
    rw [artistLoop, dif_pos hlt, if_neg (by rw [hz]; norm_num)]
    dsimp only
    rw [hf, if_neg (by push_neg; omega), if_pos ⟨hid, h1⟩,
      if_pos (by omega)]
    rfl
  · rw [show readID3Title helloFile = titleLoop 3 16 helloBody 0 from rfl,
      titleLoop]
    decide
  · rw [show readID3Artist artistFile = artistLoop 3 17 artistBody 0 from rfl,
      artistLoop]
    decide

/-- Closed instance of `first_matching_frame_determines_text`: its
general single-step parts applied to the concrete bodies. -/
theorem first_matching_frame_determines_text_witness :
    titleLoop 3 16 helloBody 0
      = ((helloBody.drop 11).take 5).takeWhile (fun b => !(b == 0))
    ∧ artistLoop 3 17 artistBody 0
      = ((artistBody.drop 11).take 6).takeWhile (fun b => !(b == 0)) := by
  constructor
  · have h := first_matching_frame_determines_text.1 3 16 helloBody 0 6
      (by norm_num) (by decide) (by decide) (by decide) (by decide)
    simpa using h
  · have h := first_matching_frame_determines_text.2.1 3 17 artistBody 0 7
      (by norm_num) (by decide) (by decide) (by decide) (by decide)
    simpa using h

/-- C9 counterexample: a trailer whose 30-byte title field is
"S", NUL, "X" followed by 27 spaces.  The claim's description
(right-trimming of trailing space/null bytes) yields [83, 0, 88]
("S\x00X"), but `ReadID3v1Tag` returns just [83] ("S"): building the
`std::string` from the field buffer stops at the embedded null. -/
theorem id3v1_interior_null_truncates :
    readID3v1Tag v1CexFile = some ([83], [66, 97, 110, 100])
    ∧ rtrimField ([83, 0, 88] ++ List.replicate 27 32) = [83, 0, 88]
    ∧ ([83] : List Nat) ≠ [83, 0, 88] := by
  exact ⟨by decide, by decide, by decide⟩

/-- C9 (amended): the fixed-trailer reader returns absent when fewer
than 128 bytes can be read from the end of the file or when the last 128
bytes do not start with "TAG"; otherwise it returns the 30-byte title
field (trailer bytes 3-32) and the 30-byte artist field (bytes 33-62),
each right-trimmed of trailing space and null bytes and then truncated
at the first remaining (embedded) null byte.  The trailer
"TAG" + "Song".pad(30) + "Band".pad(30) yields title "Song" and artist
"Band". -/
theorem id3v1_tag_fields (file : List Nat) :
    (file.length < 128 → readID3v1Tag file = none)
    ∧ (128 ≤ file.length →
        ¬ ((file.drop (file.length - 128)).getD 0 0 = 84
            ∧ (file.drop (file.length - 128)).getD 1 0 = 65
            ∧ (file.drop (file.length - 128)).getD 2 0 = 71) →
        readID3v1Tag file = none)
    ∧ (128 ≤ file.length →
        ((file.drop (file.length - 128)).getD 0 0 = 84
          ∧ (file.drop (file.length - 128)).getD 1 0 = 65
          ∧ (file.drop (file.length - 128)).getD 2 0 = 71) →
        readID3v1Tag file = some
          ((((((file.drop (file.length - 128)).drop 3).take 30).rdropWhile
              (fun b => b == 32 || b == 0)).takeWhile (fun b => !(b == 0))),
           (((((file.drop (file.length - 128)).drop 33).take 30).rdropWhile
              (fun b => b == 32 || b == 0)).takeWhile (fun b => !(b == 0)))))
    ∧ readID3v1Tag v1GoodFile
        = some ([83, 111, 110, 103], [66, 97, 110, 100]) := by
  refine ⟨?_, ?_, ?_, by decide⟩
  · intro h
    unfold readID3v1Tag
    rw [if_pos h]
  · intro h hm
    unfold readID3v1Tag
    rw [if_neg (by omega)]
    dsimp only
    rw [if_pos hm]
  · intro h hm
    unfold readID3v1Tag
    rw [if_neg (by omega)]
    dsimp only
    rw [if_neg (not_not_intro hm)]
    rfl

/-- Closed instance of `id3v1_tag_fields`: a short file, a file without
the magic, and the well-formed example trailer. -/
theorem id3v1_tag_fields_witness :
    readID3v1Tag [] = none
    ∧ readID3v1Tag (List.replicate 128 0) = none
    ∧ readID3v1Tag v1GoodFile = some
        ((((((v1GoodFile.drop (v1GoodFile.length - 128)).drop 3).take 30).rdropWhile
            (fun b => b == 32 || b == 0)).takeWhile (fun b => !(b == 0))),
         (((((v1GoodFile.drop (v1GoodFile.length - 128)).drop 33).take 30).rdropWhile
            (fun b => b == 32 || b == 0)).takeWhile (fun b => !(b == 0)))) := by
  refine ⟨(id3v1_tag_fields []).1 (by decide),
    (id3v1_tag_fields _).2.1 (by decide) (by decide),
    (id3v1_tag_fields v1GoodFile).2.2.1 (by decide) (by decide)⟩

lemma setVolume_volume (v : Int) (s : PlayerState) :
    (setVolume v s).volume = min (max v 0) 128 := by
  unfold setVolume
  dsimp only
  split_ifs <;> omega

lemma applyOp_volume_bounds (s : PlayerState) (op : PlayerOp)
    (h0 : 0 ≤ s.volume) (h1 : s.volume ≤ 128) :
    0 ≤ (applyOp s op).volume ∧ (applyOp s op).volume ≤ 128 := by
  cases op with
  | setVol v =>
    have h := setVolume_volume v s
    simp only [applyOp]
    omega
  | doInit ok =>
    simp only [applyOp]
    split_ifs <;> exact ⟨h0, h1⟩
  | shutdown => exact ⟨h0, h1⟩
  | setEnabled e => exact ⟨h0, h1⟩
  | playback => exact ⟨h0, h1⟩

lemma runOps_volume_bounds (ops : List PlayerOp) :
    ∀ s : PlayerState, 0 ≤ s.volume → s.volume ≤ 128 →
      0 ≤ (runOps s ops).volume ∧ (runOps s ops).volume ≤ 128 := by
  induction ops with
  | nil => exact fun s h0 h1 => ⟨h0, h1⟩
  | cons op ops ih =>
    intro s h0 h1
    have hstep := applyOp_volume_bounds s op h0 h1
    have : runOps s (op :: ops) = runOps (applyOp s op) ops := rfl
    rw [this]
    exact ih (applyOp s op) hstep.1 hstep.2

/-- C10: `SetVolume v` stores `min (max v 0) 128` — the clamp to
[0, 128] — independently of whether the player is initialized (the
store is unconditional; only the mixer call is guarded), and after any
sequence of player operations starting from the freshly constructed
player the stored volume remains within [0, 128], which is what
`GetVolume` returns. -/
theorem volume_clamped :
    (∀ (v : Int) (s : PlayerState),
      (setVolume v s).volume = min (max v 0) 128
        ∧ (setVolume v s).initialized = s.initialized)
    ∧ (∀ ops : List PlayerOp,
      0 ≤ (runOps initialPlayer ops).volume
        ∧ (runOps initialPlayer ops).volume ≤ 128) := by
  constructor
  · exact fun v s => ⟨setVolume_volume v s, rfl⟩
  · exact fun ops => runOps_volume_bounds ops initialPlayer
      (by norm_num [initialPlayer]) (by norm_num [initialPlayer])

end UTheme
